import Mathlib

/-!
A shallow embedding of the advanced trading bot
(`attached_assets/trading_bot_1762899519930.py`).

Python floats (prices, balances, indicator values) are modelled as exact
rationals, pandas `NaN` entries as `Option.none`, and the bot's mutable
instance fields (`self.balance`, `self.position`, ...) as an explicit
`BotState` record threaded through the trading operations.  Wall-clock
fields (`entry_time`, `hold_duration`, `time`) and the exchange
connection are external inputs and are left out of the model; the bars
fetched from the exchange are passed in as values (`none` standing for a
failed fetch, for which `get_ohlcv_data` returns `None`).
-/

set_option maxHeartbeats 1000000

namespace TradingBot

/-- Arithmetic mean of a list of rationals (pandas `Series.mean` on a
fully defined series; callers only use it on nonempty windows). -/
def mean (xs : List ℚ) : ℚ := xs.sum / xs.length

/-- Mean that skips undefined (`NaN`) entries, as pandas
`Series.mean(skipna=True)` does. -/
def mean_skipna (xs : List (Option ℚ)) : ℚ := mean (xs.filterMap id)

/-- pandas `Series.isna().all()`. -/
def isna_all (xs : List (Option ℚ)) : Bool := xs.all (·.isNone)

/-- pandas `Series.pct_change(k)`: row `i` holds `x_i / x_(i-k) - 1`,
and the first `k` rows are undefined. -/
def pct_change (k : ℕ) (xs : List ℚ) : List (Option ℚ) :=
  (List.range xs.length).map fun i =>
    if k ≤ i then some (xs.getD i 0 / xs.getD (i - k) 0 - 1) else none

/-- pandas `Series.rolling(k).mean()`: row `i` averages the window of
the most recent `k` values and is undefined while fewer than `k` values
have been seen. -/
def rolling_mean (k : ℕ) (xs : List ℚ) : List (Option ℚ) :=
  (List.range xs.length).map fun i =>
    if k ≤ i + 1 then some (mean ((xs.drop (i + 1 - k)).take k)) else none

/-- `calculate_rsi(prices, period)`.  `delta = prices.diff()` has an
undefined first row; `delta.where(delta > 0, 0)` replaces it by `0`
(`NaN > 0` is false), so gains and losses are total.  The ratio divides
the rolling mean of gains by the rolling mean of losses with zeros and
undefined rows of the denominator replaced by `1`
(`avg_loss.replace(0, nan).fillna(1)`), and any still-undefined RSI row
(an undefined `avg_gain`) is filled with `50`. -/
def calculate_rsi (prices : List ℚ) (period : ℕ) : List ℚ :=
  if prices.length < period then List.replicate prices.length 50
  else
    let delta : List (Option ℚ) := (List.range prices.length).map fun i =>
      if i = 0 then none else some (prices.getD i 0 - prices.getD (i - 1) 0)
    let gain : List ℚ := delta.map fun d =>
      match d with
      | none => 0
      | some x => if x > 0 then x else 0
    let loss : List ℚ := delta.map fun d =>
      match d with
      | none => 0
      | some x => if x < 0 then -x else 0
    let avg_gain := rolling_mean period gain
    let avg_loss := rolling_mean period loss
    (List.range prices.length).map fun i =>
      match avg_gain.getD i none with
      | none => 50
      | some g =>
          let l : ℚ :=
            match avg_loss.getD i none with
            | none => 1
            | some l0 => if l0 = 0 then 1 else l0
          100 - 100 / (1 + g / l)

/-- One OHLCV bar (the timestamp column is never read by the core). -/
structure Bar where
  open_ : ℚ
  high : ℚ
  low : ℚ
  close : ℚ
  volume : ℚ
deriving DecidableEq

/-- The volatility sub-expression of `analyze_coin_potential`:
`(df['high'] - df['low']).mean() / df['close'].mean()`. -/
def volatility (d : List Bar) : ℚ :=
  mean (d.map fun b => b.high - b.low) / mean (d.map (·.close))

/-- `analyze_coin_potential`.  The bars fetched for the symbol are the
input.  Rationals carry no `NaN`, so the `pd.isna` fallbacks on the
already-computed `volatility`/`volume_trend`/`price_trend` values and on
the last RSI row never fire; the `isna().all()` guards on the two trend
series are kept as written. -/
def analyze_coin_potential (df : Option (List Bar)) : ℚ :=
  match df with
  | none => 0
  | some d =>
    if d.length < 50 then 0
    else
      let volume_trend : ℚ :=
        if isna_all (pct_change 5 (d.map (·.volume))) then 0
        else mean_skipna (pct_change 5 (d.map (·.volume)))
      let price_trend : ℚ :=
        if isna_all (pct_change 10 (d.map (·.close))) then 0
        else |mean_skipna (pct_change 10 (d.map (·.close)))|
      let rsi : ℚ :=
        match (calculate_rsi (d.map (·.close)) 14).getLast? with
        | some r => r
        | none => 50
      let profit_potential : ℚ :=
        volatility d * 1000 + volume_trend * 500 + price_trend * 1000 +
          (50 - |50 - rsi|) * 0.5
      max 0 (min 100 profit_potential)

/-- Sample variance of a window, i.e. pandas `rolling(period).std()`
(ddof = 1) squared. -/
def sample_var (w : List ℚ) : ℚ :=
  (w.map fun x => (x - mean w) ^ 2).sum / ((w.length : ℚ) - 1)

/-- `calculate_bollinger_bands(prices, period, std)`.  A series shorter
than `period` short-circuits to two all-zero series; otherwise rows with
an incomplete window are `NaN` for the SMA and rolling std, so the bands
are `NaN` there and `fillna(prices)` replaces them with the row's own
price. -/
noncomputable def calculate_bollinger_bands (prices : List ℚ) (period : ℕ) (std : ℚ) :
    List ℝ × List ℝ :=
  if prices.length < period then
    (List.replicate prices.length 0, List.replicate prices.length 0)
  else
    ((List.range prices.length).map fun i =>
        if period ≤ i + 1 then
          let w := (prices.drop (i + 1 - period)).take period
          ((mean w : ℚ) : ℝ) + (std : ℝ) * Real.sqrt ((sample_var w : ℚ) : ℝ)
        else ((prices.getD i 0 : ℚ) : ℝ),
     (List.range prices.length).map fun i =>
        if period ≤ i + 1 then
          let w := (prices.drop (i + 1 - period)).take period
          ((mean w : ℚ) : ℝ) - (std : ℝ) * Real.sqrt ((sample_var w : ℚ) : ℝ)
        else ((prices.getD i 0 : ℚ) : ℝ))

/-- The trading signal returned by the strategy. -/
inductive Action where
  | BUY
  | SELL
  | HOLD
deriving DecidableEq

/-- `self.position` as a record (`entry_time` is wall clock and not
modelled; the `'type'` key is called `ptype` because `type` is reserved). -/
structure Position where
  entry_price : ℚ
  size : ℚ
  stop_loss : ℚ
  take_profit : ℚ
  ptype : String
  signal_strength : ℤ
  symbol : String
deriving DecidableEq

/-- One row of the indicator-enriched frame as the strategy reads it:
`close` is always present on a fetched bar, while every derived column
may be missing or `NaN` (`none`), in which case `safe_value` substitutes
the per-field default. -/
structure Row where
  close : ℚ
  MA_10 : Option ℚ
  MA_20 : Option ℚ
  MA_50 : Option ℚ
  RSI_7 : Option ℚ
  RSI_14 : Option ℚ
  MACD : Option ℚ
  MACD_Signal : Option ℚ
  Volume_Ratio : Option ℚ
  BB_Upper : Option ℚ
  BB_Middle : Option ℚ
  Stoch_K : Option ℚ
  Stoch_D : Option ℚ
  Momentum : Option ℚ
  Price_Change : Option ℚ
deriving DecidableEq

/-- The fixed high-volatility substrings the strategy checks the symbol
against: `['SOL', 'AVAX', 'ADA', 'DOT']`. -/
def high_vol_coins : List String := ["SOL", "AVAX", "ADA", "DOT"]

/-- Python's substring test `sub in symbol`. -/
def str_contains (symbol sub : String) : Bool :=
  decide (sub.toList <:+: symbol.toList)

/-- `self.position and current_close <= self.position['stop_loss']`. -/
def stop_hit (position : Option Position) (current_close : ℚ) : Bool :=
  match position with
  | some p => decide (current_close ≤ p.stop_loss)
  | none => false

/-- Sell condition 8:
`self.position and current_close >= self.position['entry_price'] * 1.08`. -/
def profit_lock (position : Option Position) (current_close : ℚ) : Bool :=
  match position with
  | some p => decide (current_close ≥ p.entry_price * 1.08)
  | none => false

/-- The strategy's `strong_buy_conditions` list for the latest row
(`current = df.iloc[-1]`), with the `safe_value` defaults realised by
`Option.getD`. -/
def strong_buy_conditions (current : Row) : List Bool :=
  [decide (current.MA_10.getD 0 > current.MA_20.getD 0 ∧
      current.MA_20.getD 0 > current.MA_50.getD 0),
   decide (30 < current.RSI_7.getD 50 ∧ current.RSI_7.getD 50 < 80),
   decide (current.MACD.getD 0 > current.MACD_Signal.getD 0),
   decide (current.Volume_Ratio.getD 1 > 1.2),
   decide (current.close > current.BB_Upper.getD (current.close * 1.1) * 0.98),
   decide (current.Stoch_K.getD 50 > current.Stoch_D.getD 50 ∧
      current.Stoch_K.getD 50 < 80),
   decide (current.Momentum.getD 0 > 0),
   decide (current.Price_Change.getD 0 > -0.02)]

/-- The strategy's `strong_sell_conditions` list. -/
def strong_sell_conditions (current : Row) (position : Option Position) :
    List Bool :=
  [decide (current.MA_10.getD 0 < current.MA_20.getD 0),
   decide (current.RSI_14.getD 50 > 75),
   decide (current.MACD.getD 0 < current.MACD_Signal.getD 0),
   decide (current.Volume_Ratio.getD 1 < 0.8),
   decide (current.close < current.BB_Middle.getD current.close),
   decide (current.Stoch_K.getD 50 < current.Stoch_D.getD 50),
   decide (current.Momentum.getD 0 < 0),
   profit_lock position current.close]

/-- `buy_score = sum(strong_buy_conditions) * 2`, then the
high-volatility bonus (`+2` when `volume_ratio > 1.5`, `+1` when
`abs(price_change) > 0.05`, only for symbols containing one of
`high_vol_coins`). -/
def buy_score (current : Row) (symbol : String) : ℤ :=
  let base : ℤ := ((strong_buy_conditions current).count true : ℤ) * 2
  if high_vol_coins.any (str_contains symbol) then
    let base := if current.Volume_Ratio.getD 1 > 1.5 then base + 2 else base
    if |current.Price_Change.getD 0| > 0.05 then base + 1 else base
  else base

/-- `sell_score = sum(strong_sell_conditions)`. -/
def sell_score (current : Row) (position : Option Position) : ℤ :=
  ((strong_sell_conditions current position).count true : ℤ)

/-- `aggressive_profit_strategy(df, symbol)`.  `df = none` models a
failed fetch (`df is None`); `position` is `self.position`. -/
def aggressive_profit_strategy (df : Option (List Row)) (symbol : String)
    (position : Option Position) : Action × ℤ :=
  match df with
  | none => (Action.HOLD, 0)
  | some rows =>
    if rows.length < 50 then (Action.HOLD, 0)
    else
      match rows.getLast? with
      | none => (Action.HOLD, 0)
      | some current =>
        if buy_score current symbol ≥ 8 then
          (Action.BUY, buy_score current symbol)
        else if sell_score current position ≥ 4 ∨ stop_hit position current.close then
          (Action.SELL, sell_score current position)
        else (Action.HOLD, 0)

/-- A record appended to `self.trades` (wall-clock fields omitted).
`sell` covers both the signal-driven close (`reason = none`, the record
with `hold_duration`) and the forced close (`reason = some r`). -/
inductive TradeInfo where
  | buy (symbol : String) (price : ℚ) (size : ℚ) (signal_strength : ℤ)
      (take_profit_pct : ℚ) (stop_loss_pct : ℚ)
  | sell (symbol : String) (price : ℚ) (size : ℚ) (profit_loss : ℚ)
      (entry_price : ℚ) (reason : Option String)
deriving DecidableEq

/-- The bot's mutable account fields. -/
structure BotState where
  initial_balance : ℚ
  balance : ℚ
  risk_per_trade : ℚ
  max_drawdown : ℚ
  position : Option Position
  trades : List TradeInfo
  total_trades : ℕ
  winning_trades : ℕ
deriving DecidableEq

/-- `calculate_position_size(current_price, stop_loss_price, symbol)`.
The Python method reads `self.balance` and `self.risk_per_trade` and
calls `analyze_coin_potential(symbol)`, which fetches bars from the
exchange; that score is therefore the input `profit_potential` here. -/
def calculate_position_size (balance risk_per_trade current_price stop_loss_price
    profit_potential : ℚ) : ℚ :=
  let base_risk := balance * risk_per_trade
  let base_risk :=
    if profit_potential > 70 then base_risk * 1.5
    else if profit_potential > 50 then base_risk * 1.2
    else base_risk
  let price_diff := |current_price - stop_loss_price|
  if price_diff = 0 then 0
  else
    let position_size := base_risk / price_diff
    let max_position_value := balance * min 0.15 (0.08 * (profit_potential / 50))
    if position_size * current_price > max_position_value then
      max_position_value / current_price
    else position_size

/-- `force_close_position(current_price, reason, symbol)`.  With no open
position the Python body raises `TypeError` on `self.position['type']`,
which the handler swallows, so the state comes back unchanged; the same
happens for a position whose type is not `'BUY'`. -/
def force_close_position (s : BotState) (current_price : ℚ)
    (reason symbol : String) : BotState :=
  match s.position with
  | none => s
  | some p =>
    if p.ptype = "BUY" then
      let profit_loss := (current_price - p.entry_price) * p.size
      { s with
        balance := s.balance + p.size * current_price,
        total_trades := s.total_trades + 1,
        winning_trades := s.winning_trades + (if profit_loss > 0 then 1 else 0),
        trades := s.trades ++
          [TradeInfo.sell symbol current_price p.size profit_loss p.entry_price
            (some reason)],
        position := none }
    else s

/-- `manage_open_position(current_price, symbol)`.  Mirrors the in-place
mutation order of the Python: the trailing ratchet updates
`self.position['stop_loss']` first, and the stop-loss / take-profit
checks then read the updated value.  With no open position the
`TypeError` is swallowed and the state is unchanged. -/
def manage_open_position (s : BotState) (current_price : ℚ) (symbol : String) :
    BotState :=
  match s.position with
  | none => s
  | some p =>
    if p.ptype = "BUY" then
      let q :=
        if current_price ≥ p.entry_price * 1.03 then
          if p.entry_price * 1.01 > p.stop_loss then
            { p with stop_loss := p.entry_price * 1.01 }
          else p
        else p
      let s1 := { s with position := some q }
      if current_price ≤ q.stop_loss then
        force_close_position s1 current_price "Stop Loss" symbol
      else if current_price ≥ q.take_profit then
        force_close_position s1 current_price "Take Profit" symbol
      else s1
    else s

/-- `self.position and self.position['symbol'] == symbol`. -/
def holds_symbol (position : Option Position) (symbol : String) : Bool :=
  match position with
  | some p => p.symbol == symbol
  | none => false

/-- `execute_trade(signal, signal_strength, current_price, symbol)`.
`profit_potential` is the externally scored value consumed by
`calculate_position_size` (see there). -/
def execute_trade (s : BotState) (signal : Action) (signal_strength : ℤ)
    (current_price : ℚ) (symbol : String) (profit_potential : ℚ) : BotState :=
  if signal = Action.BUY ∧ s.position = none then
    let stop_loss_pct : ℚ := 0.015
    let take_profit_pct : ℚ :=
      if signal_strength ≥ 10 then 0.08
      else if signal_strength ≥ 8 then 0.06
      else 0.06
    let stop_loss_price := current_price * (1 - stop_loss_pct)
    let take_profit_price := current_price * (1 + take_profit_pct)
    let position_size := calculate_position_size s.balance s.risk_per_trade
      current_price stop_loss_price profit_potential
    if position_size > 0 then
      { s with
        position := some
          { entry_price := current_price, size := position_size,
            stop_loss := stop_loss_price, take_profit := take_profit_price,
            ptype := "BUY", signal_strength := signal_strength, symbol := symbol },
        balance := s.balance - position_size * current_price,
        trades := s.trades ++
          [TradeInfo.buy symbol current_price position_size signal_strength
            take_profit_pct stop_loss_pct] }
    else s
  else if signal = Action.SELL ∧ holds_symbol s.position symbol then
    match s.position with
    | some p =>
      let profit_loss := (current_price - p.entry_price) * p.size
      { s with
        balance := s.balance + p.size * current_price,
        total_trades := s.total_trades + 1,
        winning_trades := s.winning_trades + (if profit_loss > 0 then 1 else 0),
        trades := s.trades ++
          [TradeInfo.sell symbol current_price p.size profit_loss p.entry_price
            none],
        position := none }
    | none => s
  else if holds_symbol s.position symbol then
    manage_open_position s current_price symbol
  else s

/-! ### Spec-side formulations (for refinement comparisons only)

These two definitions follow the wording of the specification's decision
rule, not the code, and are compared with the implementation's scores. -/

/-- Spec-side buy score: two points per satisfied BUY criterion of the
eight listed, plus the high-volatility bonus. -/
def buy_score_spec (current : Row) (symbol : String) : ℤ :=
  (if current.MA_10.getD 0 > current.MA_20.getD 0 ∧
      current.MA_20.getD 0 > current.MA_50.getD 0 then 2 else 0) +
  (if 30 < current.RSI_7.getD 50 ∧ current.RSI_7.getD 50 < 80 then 2 else 0) +
  (if current.MACD.getD 0 > current.MACD_Signal.getD 0 then 2 else 0) +
  (if current.Volume_Ratio.getD 1 > 1.2 then 2 else 0) +
  (if current.close > current.BB_Upper.getD (current.close * 1.1) * 0.98
    then 2 else 0) +
  (if current.Stoch_K.getD 50 > current.Stoch_D.getD 50 ∧
      current.Stoch_K.getD 50 < 80 then 2 else 0) +
  (if current.Momentum.getD 0 > 0 then 2 else 0) +
  (if current.Price_Change.getD 0 > -0.02 then 2 else 0) +
  (if high_vol_coins.any (str_contains symbol) then
    (if current.Volume_Ratio.getD 1 > 1.5 then 2 else 0) +
    (if |current.Price_Change.getD 0| > 0.05 then 1 else 0)
   else 0)

/-- Spec-side sell score: one point per satisfied SELL criterion of the
eight listed. -/
def sell_score_spec (current : Row) (position : Option Position) : ℤ :=
  (if current.MA_10.getD 0 < current.MA_20.getD 0 then 1 else 0) +
  (if current.RSI_14.getD 50 > 75 then 1 else 0) +
  (if current.MACD.getD 0 < current.MACD_Signal.getD 0 then 1 else 0) +
  (if current.Volume_Ratio.getD 1 < 0.8 then 1 else 0) +
  (if current.close < current.BB_Middle.getD current.close then 1 else 0) +
  (if current.Stoch_K.getD 50 < current.Stoch_D.getD 50 then 1 else 0) +
  (if current.Momentum.getD 0 < 0 then 1 else 0) +
  (if profit_lock position current.close then 1 else 0)

/-- Spec-side volatility term base: the claim's `mean((high-low)/close)`,
each row's range divided by that row's own close. -/
def volatilitySpec (d : List Bar) : ℚ :=
  mean (d.map fun b => (b.high - b.low) / b.close)

/-! ### Concrete fixtures used by scenario conjuncts and witnesses -/

/-- The spec's concrete BUY scenario row: all eight BUY criteria hold. -/
def scenario_row : Row :=
  { close := 99, MA_10 := some 110, MA_20 := some 105, MA_50 := some 100,
    RSI_7 := some 50, RSI_14 := some 50, MACD := some 1,
    MACD_Signal := some 0.5, Volume_Ratio := some 1.3, BB_Upper := some 100,
    BB_Middle := some 99, Stoch_K := some 60, Stoch_D := some 55,
    Momentum := some 2, Price_Change := some (-0.01) }

/-- A filler row with every derived column missing. -/
def blank_row : Row :=
  { close := 0, MA_10 := none, MA_20 := none, MA_50 := none, RSI_7 := none,
    RSI_14 := none, MACD := none, MACD_Signal := none, Volume_Ratio := none,
    BB_Upper := none, BB_Middle := none, Stoch_K := none, Stoch_D := none,
    Momentum := none, Price_Change := none }

/-- A 50-row frame whose latest row is the spec scenario row. -/
def scenario_rows : List Row := List.replicate 49 blank_row ++ [scenario_row]

/-- A concrete open BUY position: entry 100, stop 98.5, take-profit 106. -/
def pos0 : Position :=
  { entry_price := 100, size := 1, stop_loss := 98.5, take_profit := 106,
    ptype := "BUY", signal_strength := 8, symbol := "BTC/USDT" }

/-- A concrete flat account state. -/
def st_flat : BotState :=
  { initial_balance := 1000, balance := 1000, risk_per_trade := 0.025,
    max_drawdown := 0.12, position := none, trades := [],
    total_trades := 0, winning_trades := 0 }

/-- A concrete state holding `pos0`. -/
def st_open : BotState := { st_flat with balance := 900, position := some pos0 }

/-- Counterexample bar with range 1 and close 1. -/
def bar_a : Bar := { open_ := 1, high := 2, low := 1, close := 1, volume := 1 }

/-- Counterexample bar with range 1 and close 2. -/
def bar_b : Bar := { open_ := 2, high := 3, low := 2, close := 2, volume := 1 }

/-- A 50-bar sequence on which the two volatility formulas disagree. -/
def cex_bars : List Bar := bar_a :: List.replicate 49 bar_b

/-! ### Helper lemmas -/

/-- A count of eight decided conditions, doubled, is the sum of two
points per satisfied condition. -/
theorem count_mul_two (p1 p2 p3 p4 p5 p6 p7 p8 : Prop)
    [Decidable p1] [Decidable p2] [Decidable p3] [Decidable p4]
    [Decidable p5] [Decidable p6] [Decidable p7] [Decidable p8] :
    ((List.count true [decide p1, decide p2, decide p3, decide p4,
        decide p5, decide p6, decide p7, decide p8] : ℕ) : ℤ) * 2 =
      (if p1 then 2 else 0) + (if p2 then 2 else 0) + (if p3 then 2 else 0) +
      (if p4 then 2 else 0) + (if p5 then 2 else 0) + (if p6 then 2 else 0) +
      (if p7 then 2 else 0) + (if p8 then 2 else 0) := by
  by_cases h1 : p1 <;> by_cases h2 : p2 <;> by_cases h3 : p3 <;>
    by_cases h4 : p4 <;> by_cases h5 : p5 <;> by_cases h6 : p6 <;>
    by_cases h7 : p7 <;> by_cases h8 : p8 <;>
    simp [h1, h2, h3, h4, h5, h6, h7, h8, List.count_cons]

/-- A count of seven decided conditions and one boolean is the sum of
one point per satisfied condition. -/
theorem count_one (p1 p2 p3 p4 p5 p6 p7 : Prop)
    [Decidable p1] [Decidable p2] [Decidable p3] [Decidable p4]
    [Decidable p5] [Decidable p6] [Decidable p7] (b8 : Bool) :
    ((List.count true [decide p1, decide p2, decide p3, decide p4,
        decide p5, decide p6, decide p7, b8] : ℕ) : ℤ) =
      (if p1 then 1 else 0) + (if p2 then 1 else 0) + (if p3 then 1 else 0) +
      (if p4 then 1 else 0) + (if p5 then 1 else 0) + (if p6 then 1 else 0) +
      (if p7 then 1 else 0) + (if b8 then 1 else 0) := by
  by_cases h1 : p1 <;> by_cases h2 : p2 <;> by_cases h3 : p3 <;>
    by_cases h4 : p4 <;> by_cases h5 : p5 <;> by_cases h6 : p6 <;>
    by_cases h7 : p7 <;> cases b8 <;>
    simp [h1, h2, h3, h4, h5, h6, h7, List.count_cons]

/-- The implementation's buy score agrees with the spec-side sum. -/
theorem buy_score_eq_spec (current : Row) (symbol : String) :
    buy_score current symbol = buy_score_spec current symbol := by
  unfold buy_score buy_score_spec strong_buy_conditions
  rw [count_mul_two]
  by_cases hA : high_vol_coins.any (str_contains symbol) = true
  · simp only [hA, if_true]
    by_cases hv : current.Volume_Ratio.getD 1 > 1.5 <;>
      by_cases hc : |current.Price_Change.getD 0| > 0.05 <;>
      · simp [hv, hc]
        try ring
  · simp only [Bool.not_eq_true] at hA
    simp [hA]

/-- The implementation's sell score agrees with the spec-side sum. -/
theorem sell_score_eq_spec (current : Row) (position : Option Position) :
    sell_score current position = sell_score_spec current position := by
  unfold sell_score sell_score_spec strong_sell_conditions
  rw [count_one]

/-! ### C1 -/

/-- C1: for every frame of length at least 50, the strategy follows the
claimed precedence over the claimed scores (two points per satisfied BUY
criterion plus the high-volatility bonus; BUY at `buy_score ≥ 8`, else
SELL at `sell_score ≥ 4` or a stop-loss hit on the open position, else
HOLD/0), and on the spec's concrete scenario it returns `(BUY, 16)`. -/
theorem aggressive_profit_strategy_decision :
    (∀ (rows : List Row) (symbol : String) (position : Option Position)
        (current : Row), 50 ≤ rows.length → rows.getLast? = some current →
      aggressive_profit_strategy (some rows) symbol position =
        (if 8 ≤ buy_score_spec current symbol then
          (Action.BUY, buy_score_spec current symbol)
         else if 4 ≤ sell_score_spec current position ∨
            stop_hit position current.close then
          (Action.SELL, sell_score_spec current position)
         else (Action.HOLD, 0))) ∧
    aggressive_profit_strategy (some scenario_rows) "BTC/USDT" none =
      (Action.BUY, 16) := by
  have main : ∀ (rows : List Row) (symbol : String) (position : Option Position)
      (current : Row), 50 ≤ rows.length → rows.getLast? = some current →
      aggressive_profit_strategy (some rows) symbol position =
        (if 8 ≤ buy_score_spec current symbol then
          (Action.BUY, buy_score_spec current symbol)
         else if 4 ≤ sell_score_spec current position ∨
            stop_hit position current.close then
          (Action.SELL, sell_score_spec current position)
         else (Action.HOLD, 0)) := by
    intro rows symbol position current h50 hlast
    have h : ¬ rows.length < 50 := by omega
    simp only [aggressive_profit_strategy, hlast, if_neg h, buy_score_eq_spec,
      sell_score_eq_spec, ge_iff_le]
  refine ⟨main, ?_⟩
  rw [main scenario_rows "BTC/USDT" none scenario_row (by decide)
    (List.getLast?_concat _)]
  have hA : high_vol_coins.any (str_contains "BTC/USDT") = false := by decide
  norm_num [buy_score_spec, scenario_row, hA]

/-- Witness for C1 at the spec scenario. -/
theorem aggressive_profit_strategy_decision_witness :
    (50 ≤ scenario_rows.length ∧ scenario_rows.getLast? = some scenario_row) ∧
    aggressive_profit_strategy (some scenario_rows) "BTC/USDT" none =
      (if 8 ≤ buy_score_spec scenario_row "BTC/USDT" then
        (Action.BUY, buy_score_spec scenario_row "BTC/USDT")
       else if 4 ≤ sell_score_spec scenario_row none ∨
          stop_hit none scenario_row.close then
        (Action.SELL, sell_score_spec scenario_row none)
       else (Action.HOLD, 0)) :=
  ⟨⟨by decide, List.getLast?_concat _⟩,
    aggressive_profit_strategy_decision.1 scenario_rows "BTC/USDT" none
      scenario_row (by decide) (List.getLast?_concat _)⟩

/-! ### C2 -/

/-- C2: on fewer than 50 bars (or an absent frame), the strategy returns
`(HOLD, 0)` and the potential scorer returns `0`. -/
theorem short_frame_hold_and_zero (rows : List Row) (bars : List Bar)
    (symbol : String) (position : Option Position)
    (h1 : rows.length < 50) (h2 : bars.length < 50) :
    aggressive_profit_strategy (some rows) symbol position = (Action.HOLD, 0) ∧
    aggressive_profit_strategy none symbol position = (Action.HOLD, 0) ∧
    analyze_coin_potential (some bars) = 0 ∧
    analyze_coin_potential none = 0 := by
  refine ⟨?_, rfl, ?_, rfl⟩
  · simp [aggressive_profit_strategy, h1]
  · simp [analyze_coin_potential, h2]

/-- Witness for C2 on the empty frame. -/
theorem short_frame_hold_and_zero_witness :
    ([] : List Row).length < 50 ∧ ([] : List Bar).length < 50 ∧
    (aggressive_profit_strategy (some []) "BTC/USDT" none = (Action.HOLD, 0) ∧
     aggressive_profit_strategy none "BTC/USDT" none = (Action.HOLD, 0) ∧
     analyze_coin_potential (some []) = 0 ∧
     analyze_coin_potential none = 0) :=
  ⟨by decide, by decide,
    short_frame_hold_and_zero [] [] "BTC/USDT" none (by decide) (by decide)⟩

/-! ### C10 -/

/-- C10: a SELL signal for a symbol different from the held position's
symbol leaves the state entirely unchanged. -/
theorem sell_other_symbol_noop (s : BotState) (p : Position) (strength : ℤ)
    (price : ℚ) (symbol : String) (pot : ℚ)
    (hp : s.position = some p) (hs : p.symbol ≠ symbol) :
    execute_trade s Action.SELL strength price symbol pot = s := by
  simp [execute_trade, hp, holds_symbol, hs]

/-- Witness for C10: a SELL for ETH while holding BTC does nothing. -/
theorem sell_other_symbol_noop_witness :
    st_open.position = some pos0 ∧ pos0.symbol ≠ "ETH/USDT" ∧
    execute_trade st_open Action.SELL 4 100 "ETH/USDT" 0 = st_open :=
  ⟨rfl, by decide,
    sell_other_symbol_noop st_open pos0 4 100 "ETH/USDT" 0 rfl (by decide)⟩

/-! ### C5 -/

/-- C5: the position-size computation follows the claimed formula
(`base_risk = balance * risk`, scaled by 1.5 above score 70 and by 1.2
above score 50, divided by the stop distance, zero on a degenerate stop,
and capped so the notional never exceeds
`balance * min(0.15, 0.08 * score/50)`), and the spec's concrete sizing
scenario yields 1.28. -/
theorem position_size_formula :
    (∀ balance risk price stop pot : ℚ, 0 ≤ balance → 0 ≤ pot →
      (|price - stop| = 0 →
        calculate_position_size balance risk price stop pot = 0) ∧
      calculate_position_size balance risk price stop pot * price ≤
        balance * min 0.15 (0.08 * (pot / 50)) ∧
      (|price - stop| ≠ 0 →
        calculate_position_size balance risk price stop pot =
          (if balance * risk *
                (if pot > 70 then 1.5 else if pot > 50 then 1.2 else 1) /
                |price - stop| * price >
              balance * min 0.15 (0.08 * (pot / 50)) then
            balance * min 0.15 (0.08 * (pot / 50)) / price
          else balance * risk *
              (if pot > 70 then 1.5 else if pot > 50 then 1.2 else 1) /
              |price - stop|))) ∧
    calculate_position_size 1000 0.025 100 98.5 80 = 1.28 := by
  have hmul : ∀ balance risk pot : ℚ,
      (if pot > 70 then balance * risk * 1.5
       else if pot > 50 then balance * risk * 1.2 else balance * risk) =
      balance * risk * (if pot > 70 then 1.5 else if pot > 50 then 1.2 else 1) := by
    intro balance risk pot
    split_ifs <;> ring
  constructor
  · intro balance risk price stop pot hb hpot
    have hcap : 0 ≤ balance * min 0.15 (0.08 * (pot / 50)) := by
      refine mul_nonneg hb (le_min (by norm_num) (by positivity))
    refine ⟨?_, ?_, ?_⟩
    · intro h0
      simp [calculate_position_size, h0]
    · simp only [calculate_position_size]
      generalize (if pot > 70 then balance * risk * 1.5
        else if pot > 50 then balance * risk * 1.2 else balance * risk) = base
      split_ifs with h0 hgt
      · simpa using hcap
      · rcases eq_or_ne price 0 with hp | hp
        · simp [hp, hcap]
        · rw [div_mul_cancel₀ _ hp]
      · exact le_of_not_lt hgt
    · intro h0
      simp only [calculate_position_size, if_neg h0, hmul]
  · have habs : |(3 / 2 : ℚ)| = 3 / 2 := abs_of_pos (by norm_num)
    norm_num [calculate_position_size, habs, min_def]

/-- Witness for C5 at the spec's sizing scenario. -/
theorem position_size_formula_witness :
    (0 : ℚ) ≤ 1000 ∧ (0 : ℚ) ≤ 80 ∧
    ((|(100 : ℚ) - 98.5| = 0 →
        calculate_position_size 1000 0.025 100 98.5 80 = 0) ∧
     calculate_position_size 1000 0.025 100 98.5 80 * 100 ≤
       1000 * min 0.15 (0.08 * ((80 : ℚ) / 50)) ∧
     (|(100 : ℚ) - 98.5| ≠ 0 →
       calculate_position_size 1000 0.025 100 98.5 80 =
         (if (1000 : ℚ) * 0.025 *
               (if (80 : ℚ) > 70 then 1.5 else if (80 : ℚ) > 50 then 1.2 else 1) /
               |(100 : ℚ) - 98.5| * 100 >
             1000 * min 0.15 (0.08 * ((80 : ℚ) / 50)) then
           (1000 : ℚ) * min 0.15 (0.08 * ((80 : ℚ) / 50)) / 100
         else (1000 : ℚ) * 0.025 *
             (if (80 : ℚ) > 70 then 1.5 else if (80 : ℚ) > 50 then 1.2 else 1) /
             |(100 : ℚ) - 98.5|))) :=
  ⟨by norm_num, by norm_num,
    position_size_formula.1 1000 0.025 100 98.5 80 (by norm_num) (by norm_num)⟩

/-- After `manage_open_position`, the position slot holds nothing, the
original position, or the original position with a ratcheted stop. -/
theorem manage_position_cases (s : BotState) (p : Position) (price : ℚ)
    (symbol : String) (hp : s.position = some p) :
    (manage_open_position s price symbol).position = none ∨
    (manage_open_position s price symbol).position = some p ∨
    (manage_open_position s price symbol).position =
      some { p with stop_loss := p.entry_price * 1.01 } := by
  simp only [manage_open_position, hp]
  by_cases ht : p.ptype = "BUY"
  · simp only [if_pos ht]
    split_ifs <;> simp_all [force_close_position]
  · simp [if_neg ht, hp]

/-- With a position open, a BUY signal routes `execute_trade` to
open-position management for a matching symbol and does nothing
otherwise. -/
theorem execute_buy_with_open (s : BotState) (p : Position) (strength : ℤ)
    (price : ℚ) (symbol : String) (pot : ℚ) (hp : s.position = some p) :
    execute_trade s Action.BUY strength price symbol pot =
      (if p.symbol = symbol then manage_open_position s price symbol else s) := by
  by_cases hsym : p.symbol = symbol <;>
    simp [execute_trade, hp, holds_symbol, hsym]

/-! ### C3 -/

/-- Counterexample to C3: a BUY signal while holding `pos0` (same
symbol, price 103) mutates the held position — the trailing ratchet
raises its stop-loss from 98.5 to 101 — so the call is not a no-op on
the held position. -/
theorem buy_while_open_not_noop_cex :
    st_open.position = some pos0 ∧
    (execute_trade st_open Action.BUY 16 103 "BTC/USDT" 0).position =
      some { pos0 with stop_loss := 101 } ∧
    pos0.stop_loss ≠ 101 := by
  refine ⟨rfl, ?_, by norm_num [pos0]⟩
  rw [execute_buy_with_open st_open pos0 16 103 "BTC/USDT" 0 rfl]
  norm_num [manage_open_position, force_close_position, st_open, st_flat, pos0]

/-- C3 (amended): a BUY while a position is open never opens a new
position — the call equals open-position management when the held
symbol matches (which can only keep the position, ratchet its stop, or
force-close it) and is a strict no-op otherwise. -/
theorem buy_while_open_never_opens (s : BotState) (p : Position)
    (strength : ℤ) (price : ℚ) (symbol : String) (pot : ℚ)
    (hp : s.position = some p) :
    execute_trade s Action.BUY strength price symbol pot =
      (if p.symbol = symbol then manage_open_position s price symbol else s) ∧
    ((execute_trade s Action.BUY strength price symbol pot).position = none ∨
     (execute_trade s Action.BUY strength price symbol pot).position = some p ∨
     (execute_trade s Action.BUY strength price symbol pot).position =
       some { p with stop_loss := p.entry_price * 1.01 }) := by
  have h1 := execute_buy_with_open s p strength price symbol pot hp
  refine ⟨h1, ?_⟩
  rw [h1]
  by_cases hsym : p.symbol = symbol
  · simp only [if_pos hsym]
    exact manage_position_cases s p price symbol hp
  · simp [if_neg hsym, hp]

/-- Witness for the amended C3 at a concrete open state. -/
theorem buy_while_open_never_opens_witness :
    st_open.position = some pos0 ∧
    (execute_trade st_open Action.BUY 16 103 "BTC/USDT" 0 =
      (if pos0.symbol = "BTC/USDT" then
        manage_open_position st_open 103 "BTC/USDT" else st_open) ∧
     ((execute_trade st_open Action.BUY 16 103 "BTC/USDT" 0).position = none ∨
      (execute_trade st_open Action.BUY 16 103 "BTC/USDT" 0).position = some pos0 ∨
      (execute_trade st_open Action.BUY 16 103 "BTC/USDT" 0).position =
        some { pos0 with stop_loss := pos0.entry_price * 1.01 })) :=
  ⟨rfl, buy_while_open_never_opens st_open pos0 16 103 "BTC/USDT" 0 rfl⟩

/-! ### C4 -/

/-- C4: across a `manage_open_position` call that leaves the position
open, the stop-loss never decreases, and once the price has reached
`entry_price * 1.03` the surviving stop equals
`max stop_loss (entry_price * 1.01)`. -/
theorem trailing_stop_ratchet (s : BotState) (p p' : Position) (price : ℚ)
    (symbol : String) (hp : s.position = some p) (ht : p.ptype = "BUY")
    (hp' : (manage_open_position s price symbol).position = some p') :
    p.stop_loss ≤ p'.stop_loss ∧
    (p.entry_price * 1.03 ≤ price →
      p'.stop_loss = max p.stop_loss (p.entry_price * 1.01)) := by
  simp only [manage_open_position, hp, if_pos ht] at hp'
  by_cases hr : price ≥ p.entry_price * 1.03
  · by_cases hup : p.entry_price * 1.01 > p.stop_loss
    · simp only [if_pos hr, if_pos hup] at hp'
      split_ifs at hp' with hsl htp
      · simp [force_close_position, ht] at hp'
      · simp [force_close_position, ht] at hp'
      · simp only [Option.some.injEq] at hp'
        subst hp'
        exact ⟨le_of_lt hup, fun _ => (max_eq_right (le_of_lt hup)).symm⟩
    · simp only [if_pos hr, if_neg hup] at hp'
      split_ifs at hp' with hsl htp
      · simp [force_close_position, ht] at hp'
      · simp [force_close_position, ht] at hp'
      · simp only [Option.some.injEq] at hp'
        subst hp'
        exact ⟨le_refl _, fun _ => (max_eq_left (not_lt.mp hup)).symm⟩
  · simp only [if_neg hr] at hp'
    split_ifs at hp' with hsl htp
    · simp [force_close_position, ht] at hp'
    · simp [force_close_position, ht] at hp'
    · simp only [Option.some.injEq] at hp'
      subst hp'
      exact ⟨le_refl _, fun hcon => absurd hcon hr⟩

/-- The ratcheted version of `pos0` after a price of 103. -/
def pos0r : Position := { pos0 with stop_loss := 101 }

/-- Witness for C4: managing `pos0` at price 103 ratchets the stop from
98.5 to `max 98.5 101 = 101` and keeps the position open. -/
theorem trailing_stop_ratchet_witness :
    st_open.position = some pos0 ∧ pos0.ptype = "BUY" ∧
    (manage_open_position st_open 103 "BTC/USDT").position = some pos0r ∧
    (pos0.stop_loss ≤ pos0r.stop_loss ∧
     (pos0.entry_price * 1.03 ≤ 103 →
       pos0r.stop_loss = max pos0.stop_loss (pos0.entry_price * 1.01))) := by
  have h : (manage_open_position st_open 103 "BTC/USDT").position = some pos0r := by
    norm_num [manage_open_position, force_close_position, st_open, st_flat,
      pos0, pos0r]
  exact ⟨rfl, rfl, h,
    trailing_stop_ratchet st_open pos0 pos0r 103 "BTC/USDT" rfl rfl h⟩

/-! ### C8 -/

/-- C8: opening a position from the flat state with positive computed
size and immediately force-closing at the entry price restores the
balance exactly, clears the position, and records a trade with zero
profit and loss. -/
theorem round_trip_zero_profit (s : BotState) (strength : ℤ) (price : ℚ)
    (symbol reason : String) (pot : ℚ) (hflat : s.position = none)
    (hsize : 0 < calculate_position_size s.balance s.risk_per_trade price
        (price * (1 - 0.015)) pot) :
    (force_close_position (execute_trade s Action.BUY strength price symbol pot)
        price reason symbol).balance = s.balance ∧
    (force_close_position (execute_trade s Action.BUY strength price symbol pot)
        price reason symbol).position = none ∧
    (force_close_position (execute_trade s Action.BUY strength price symbol pot)
        price reason symbol).trades.getLast? =
      some (TradeInfo.sell symbol price
        (calculate_position_size s.balance s.risk_per_trade price
          (price * (1 - 0.015)) pot) 0 price (some reason)) := by
  refine ⟨?_, ?_, ?_⟩
  · simp only [execute_trade, hflat, and_true, reduceCtorEq, if_true]
    simp [hsize, force_close_position]
  · simp only [execute_trade, hflat, and_true, reduceCtorEq, if_true]
    simp [hsize, force_close_position]
  · simp only [execute_trade, hflat, and_true, reduceCtorEq, if_true]
    simp [hsize, force_close_position, List.getLast?_concat]

/-- Witness for C8: the round trip at price 100 on the concrete flat
state with opportunity score 80. -/
theorem round_trip_zero_profit_witness :
    st_flat.position = none ∧
    0 < calculate_position_size st_flat.balance st_flat.risk_per_trade 100
      (100 * (1 - 0.015)) 80 ∧
    ((force_close_position
        (execute_trade st_flat Action.BUY 16 100 "BTC/USDT" 80)
        100 "Stop Loss" "BTC/USDT").balance = st_flat.balance ∧
     (force_close_position
        (execute_trade st_flat Action.BUY 16 100 "BTC/USDT" 80)
        100 "Stop Loss" "BTC/USDT").position = none ∧
     (force_close_position
        (execute_trade st_flat Action.BUY 16 100 "BTC/USDT" 80)
        100 "Stop Loss" "BTC/USDT").trades.getLast? =
      some (TradeInfo.sell "BTC/USDT" 100
        (calculate_position_size st_flat.balance st_flat.risk_per_trade 100
          (100 * (1 - 0.015)) 80) 0 100 (some "Stop Loss"))) := by
  have habs : |(3 / 2 : ℚ)| = 3 / 2 := abs_of_pos (by norm_num)
  have hsz : 0 < calculate_position_size st_flat.balance st_flat.risk_per_trade
      100 (100 * (1 - 0.015)) 80 := by
    norm_num [calculate_position_size, st_flat, habs, min_def]
  exact ⟨rfl, hsz,
    round_trip_zero_profit st_flat 16 100 "BTC/USDT" "Stop Loss" 80 rfl hsz⟩

/-! ### C9 -/

/-- If `manage_open_position` changed a trade counter, it closed the
held position. -/
theorem manage_counters (s : BotState) (price : ℚ) (symbol : String)
    (h : (manage_open_position s price symbol).total_trades ≠ s.total_trades ∨
      (manage_open_position s price symbol).winning_trades ≠ s.winning_trades) :
    ∃ p, s.position = some p ∧
      (manage_open_position s price symbol).position = none := by
  cases hpos : s.position with
  | none => simp [manage_open_position, hpos] at h
  | some p =>
    refine ⟨p, rfl, ?_⟩
    by_cases ht : p.ptype = "BUY"
    · simp only [manage_open_position, hpos, if_pos ht] at h ⊢
      split_ifs at h ⊢ with h1 h2 h3 h4 h5
      all_goals first
        | simp [force_close_position, ht]
        | simp at h
    · simp [manage_open_position, hpos, ht] at h

/-- C9: opening from flat debits exactly `size * entry_price` and
leaves the counters and the initial balance untouched, and the trade
counters only ever move on a call that closes the held position. -/
theorem buy_open_frame_effects :
    (∀ (s : BotState) (strength : ℤ) (price : ℚ) (symbol : String) (pot : ℚ),
      s.position = none →
      0 < calculate_position_size s.balance s.risk_per_trade price
        (price * (1 - 0.015)) pot →
      (execute_trade s Action.BUY strength price symbol pot).balance =
        s.balance - calculate_position_size s.balance s.risk_per_trade price
          (price * (1 - 0.015)) pot * price ∧
      (execute_trade s Action.BUY strength price symbol pot).total_trades =
        s.total_trades ∧
      (execute_trade s Action.BUY strength price symbol pot).winning_trades =
        s.winning_trades ∧
      (execute_trade s Action.BUY strength price symbol pot).initial_balance =
        s.initial_balance ∧
      (∃ pos, (execute_trade s Action.BUY strength price symbol pot).position =
          some pos ∧ pos.entry_price = price ∧
          pos.size = calculate_position_size s.balance s.risk_per_trade price
            (price * (1 - 0.015)) pot)) ∧
    (∀ (s : BotState) (signal : Action) (strength : ℤ) (price : ℚ)
        (symbol : String) (pot : ℚ),
      (execute_trade s signal strength price symbol pot).total_trades ≠
          s.total_trades ∨
        (execute_trade s signal strength price symbol pot).winning_trades ≠
          s.winning_trades →
      ∃ p, s.position = some p ∧
        (execute_trade s signal strength price symbol pot).position = none) := by
  constructor
  · intro s strength price symbol pot hflat hsize
    simp only [execute_trade, hflat, and_true, reduceCtorEq, if_true]
    simp [hsize]
  · intro s signal strength price symbol pot h
    cases hpos : s.position with
    | none =>
      by_cases hb : signal = Action.BUY
      · subst hb
        simp only [execute_trade, hpos] at h
        split_ifs at h <;> simp_all
      · simp [execute_trade, hpos, holds_symbol, hb] at h
    | some p =>
      cases signal with
      | BUY =>
        rw [execute_buy_with_open s p strength price symbol pot hpos] at h ⊢
        by_cases hsym : p.symbol = symbol
        · simp only [if_pos hsym] at h ⊢
          obtain ⟨p', hp', hn⟩ := manage_counters s price symbol h
          exact ⟨p', by rw [← hpos]; exact hp', hn⟩
        · simp [if_neg hsym] at h
      | SELL =>
        by_cases hsym : holds_symbol (some p) symbol = true
        · refine ⟨p, rfl, ?_⟩
          simp [execute_trade, hpos, hsym]
        · simp [execute_trade, hpos, hsym] at h
      | HOLD =>
        by_cases hsym : holds_symbol (some p) symbol = true
        · have hm : execute_trade s Action.HOLD strength price symbol pot =
              manage_open_position s price symbol := by
            simp [execute_trade, hpos, hsym]
          rw [hm] at h
          obtain ⟨p', hp', hn⟩ := manage_counters s price symbol h
          exact ⟨p', by rw [← hpos]; exact hp', by rw [hm]; exact hn⟩
        · simp [execute_trade, hpos, hsym] at h

/-- Witness for C9: the opening effects at the concrete flat state and
the counter movement on a concrete SELL close. -/
theorem buy_open_frame_effects_witness :
    st_flat.position = none ∧
    0 < calculate_position_size st_flat.balance st_flat.risk_per_trade 100
      (100 * (1 - 0.015)) 80 ∧
    ((execute_trade st_flat Action.BUY 16 100 "BTC/USDT" 80).balance =
        st_flat.balance - calculate_position_size st_flat.balance
          st_flat.risk_per_trade 100 (100 * (1 - 0.015)) 80 * 100 ∧
      (execute_trade st_flat Action.BUY 16 100 "BTC/USDT" 80).total_trades =
        st_flat.total_trades ∧
      (execute_trade st_flat Action.BUY 16 100 "BTC/USDT" 80).winning_trades =
        st_flat.winning_trades ∧
      (execute_trade st_flat Action.BUY 16 100 "BTC/USDT" 80).initial_balance =
        st_flat.initial_balance ∧
      (∃ pos, (execute_trade st_flat Action.BUY 16 100 "BTC/USDT" 80).position =
          some pos ∧ pos.entry_price = 100 ∧
          pos.size = calculate_position_size st_flat.balance
            st_flat.risk_per_trade 100 (100 * (1 - 0.015)) 80)) ∧
    ((execute_trade st_open Action.SELL 4 100 "BTC/USDT" 0).total_trades ≠
        st_open.total_trades ∨
      (execute_trade st_open Action.SELL 4 100 "BTC/USDT" 0).winning_trades ≠
        st_open.winning_trades) ∧
    (∃ p, st_open.position = some p ∧
      (execute_trade st_open Action.SELL 4 100 "BTC/USDT" 0).position = none) := by
  have habs : |(3 / 2 : ℚ)| = 3 / 2 := abs_of_pos (by norm_num)
  have hsz : 0 < calculate_position_size st_flat.balance st_flat.risk_per_trade
      100 (100 * (1 - 0.015)) 80 := by
    norm_num [calculate_position_size, st_flat, habs, min_def]
  have hcnt : (execute_trade st_open Action.SELL 4 100 "BTC/USDT" 0).total_trades ≠
      st_open.total_trades ∨
      (execute_trade st_open Action.SELL 4 100 "BTC/USDT" 0).winning_trades ≠
      st_open.winning_trades := by
    left
    simp [execute_trade, holds_symbol, st_open, st_flat, pos0]
  exact ⟨rfl, hsz,
    buy_open_frame_effects.1 st_flat 16 100 "BTC/USDT" 80 rfl hsz,
    hcnt,
    buy_open_frame_effects.2 st_open Action.SELL 4 100 "BTC/USDT" 0 hcnt⟩

/-! ### C6 -/

/-- Counterexample to C6: on `cex_bars` (length 50) the code's
volatility term `1000 * mean(high-low)/mean(close)` differs from the
claimed `1000 * mean((high-low)/close)`. -/
theorem volatility_term_cex :
    50 ≤ cex_bars.length ∧
    volatility cex_bars * 1000 ≠ 1000 * volatilitySpec cex_bars := by
  constructor
  · decide
  · have h1 : volatility cex_bars = 50 / 99 := by
      simp [volatility, cex_bars, bar_a, bar_b, mean, List.map_replicate,
        List.sum_replicate, nsmul_eq_mul]
      norm_num
    have h2 : volatilitySpec cex_bars = 51 / 100 := by
      simp [volatilitySpec, cex_bars, bar_a, bar_b, mean, List.map_replicate,
        List.sum_replicate, nsmul_eq_mul]
      norm_num
    rw [h1, h2]
    norm_num

/-- C6 (amended): for frames of length at least 50, the volatility term
of the opportunity score is 1000 times the ratio of the mean bar range
to the mean close — a ratio of means, not a mean of per-row ratios. -/
theorem volatility_term_ratio_of_means (d : List Bar) (h : 50 ≤ d.length) :
    analyze_coin_potential (some d) =
      max 0 (min 100
        (mean (d.map fun b => b.high - b.low) / mean (d.map (·.close)) * 1000 +
         (if isna_all (pct_change 5 (d.map (·.volume))) then 0
          else mean_skipna (pct_change 5 (d.map (·.volume)))) * 500 +
         (if isna_all (pct_change 10 (d.map (·.close))) then 0
          else |mean_skipna (pct_change 10 (d.map (·.close)))|) * 1000 +
         (50 - |50 - ((calculate_rsi (d.map (·.close)) 14).getLast?).getD 50|) *
           0.5)) := by
  have hlen : ¬ d.length < 50 := by omega
  simp only [analyze_coin_potential, if_neg hlen, volatility]
  rcases hE : (calculate_rsi (d.map (·.close)) 14).getLast? with _ | r <;>
    simp [hE]

/-- Witness for the amended C6 on `cex_bars`. -/
theorem volatility_term_ratio_of_means_witness :
    50 ≤ cex_bars.length ∧
    analyze_coin_potential (some cex_bars) =
      max 0 (min 100
        (mean (cex_bars.map fun b => b.high - b.low) /
           mean (cex_bars.map (·.close)) * 1000 +
         (if isna_all (pct_change 5 (cex_bars.map (·.volume))) then 0
          else mean_skipna (pct_change 5 (cex_bars.map (·.volume)))) * 500 +
         (if isna_all (pct_change 10 (cex_bars.map (·.close))) then 0
          else |mean_skipna (pct_change 10 (cex_bars.map (·.close)))|) * 1000 +
         (50 - |50 -
            ((calculate_rsi (cex_bars.map (·.close)) 14).getLast?).getD 50|) *
           0.5)) :=
  ⟨by decide, volatility_term_ratio_of_means cex_bars (by decide)⟩

/-! ### C7 -/

/-- Counterexample to C7: on the one-bar series `[5]` (shorter than the
20-bar window) both Bollinger bands are `0`, not the close price `5`. -/
theorem bollinger_short_series_cex :
    (calculate_bollinger_bands [5] 20 2).1 = [(0 : ℝ)] ∧
    (calculate_bollinger_bands [5] 20 2).2 = [(0 : ℝ)] ∧
    ((0 : ℝ) ≠ ((5 : ℚ) : ℝ)) := by
  refine ⟨?_, ?_, by norm_num⟩ <;>
    simp [calculate_bollinger_bands, List.replicate_one]

/-- C7 (amended): when the series has at least `period` rows, every row
whose window is incomplete (`i + 1 < period`) defaults to that row's own
price in both bands; a series shorter than `period` instead yields
all-zero bands. -/
theorem bollinger_default_rows (prices : List ℚ) (period : ℕ) (std : ℚ)
    (i : ℕ) (hlen : period ≤ prices.length) (hi : i + 1 < period) :
    (calculate_bollinger_bands prices period std).1.getD i 0 =
      ((prices.getD i 0 : ℚ) : ℝ) ∧
    (calculate_bollinger_bands prices period std).2.getD i 0 =
      ((prices.getD i 0 : ℚ) : ℝ) ∧
    (∀ ps : List ℚ, ps.length < period →
      (calculate_bollinger_bands ps period std).1 =
        List.replicate ps.length (0 : ℝ) ∧
      (calculate_bollinger_bands ps period std).2 =
        List.replicate ps.length (0 : ℝ)) := by
  have hnl : ¬ prices.length < period := by omega
  have hip : i < prices.length := by omega
  refine ⟨?_, ?_, ?_⟩
  · simp only [calculate_bollinger_bands, if_neg hnl]
    rw [List.getD_eq_getElem _ _ (by simpa using hip)]
    simp [List.getElem_map, List.getElem_range,
      if_neg (by omega : ¬ period ≤ i + 1)]
  · simp only [calculate_bollinger_bands, if_neg hnl]
    rw [List.getD_eq_getElem _ _ (by simpa using hip)]
    simp [List.getElem_map, List.getElem_range,
      if_neg (by omega : ¬ period ≤ i + 1)]
  · intro ps hps
    constructor <;> simp [calculate_bollinger_bands, if_pos hps]

/-- Witness for the amended C7 on a constant 20-bar series at row 0. -/
theorem bollinger_default_rows_witness :
    (20 ≤ (List.replicate 20 (7 : ℚ)).length ∧ 0 + 1 < 20) ∧
    ((calculate_bollinger_bands (List.replicate 20 (7 : ℚ)) 20 2).1.getD 0 0 =
      (((List.replicate 20 (7 : ℚ)).getD 0 0 : ℚ) : ℝ) ∧
     (calculate_bollinger_bands (List.replicate 20 (7 : ℚ)) 20 2).2.getD 0 0 =
      (((List.replicate 20 (7 : ℚ)).getD 0 0 : ℚ) : ℝ) ∧
     (∀ ps : List ℚ, ps.length < 20 →
      (calculate_bollinger_bands ps 20 2).1 =
        List.replicate ps.length (0 : ℝ) ∧
      (calculate_bollinger_bands ps 20 2).2 =
        List.replicate ps.length (0 : ℝ))) :=
  ⟨⟨by decide, by decide⟩,
    bollinger_default_rows (List.replicate 20 7) 20 2 0 (by decide) (by decide)⟩

end TradingBot
